import Mathlib

/-!
# A shallow embedding of the babar session tracker

This file embeds the two source files of the repository:

* `babar/session.py` — the session state machine (`Session`), the persistence
  store (`BabarServer` over sqlite), and the meta-handler registry;
* `babar/git.py` — the repository snapshot archiver (`ls_files`,
  `all_unignored_files`, `archive_git_repo`).

Conventions of the embedding:

* The pickle codec is opaque with perfect round-trip fidelity, so blobs are
  represented by the structured values they encode (a `Dict` for session
  props, a `Stuff` for checkpoint payloads).
* Python dictionaries over string keys are association lists with
  insertion-order upsert (`Dict.insert` overwrites the first matching key in
  place, otherwise appends).
* Wall-clock timestamps are `Nat` parameters passed to each operation.
* `warnings.warn` is modelled by a `Bool` flag in the result of `checkpoint`.
* Exceptions are explicit: an operation that can raise returns the
  post-mutation object together with an `Option Err` (Python exceptions
  propagate but mutations already performed persist), or a `Res` value.
-/

namespace Babar

/-- Primitive Python values stored in props, state and meta payloads. -/
inductive Prim where
  | pnone
  | pint (n : Int)
  | pstr (s : String)
  deriving DecidableEq, Repr

/-- A stored value: a primitive, or a string-keyed dictionary of primitives
(enough to represent the values the claims exercise, in particular the empty
dictionary). Python objects with methods (handler instances and the like) are
outside this universe; looking up a method such as `revive` or `items` on a
`Val` therefore raises `AttributeError`, exactly as it does on the
corresponding primitive Python values. -/
inductive Val where
  | prim (p : Prim)
  | vdict (entries : List (String × Prim))
  deriving DecidableEq, Repr

/-- A Python `dict` with string keys, as an insertion-ordered association
list. -/
abbrev Dict := List (String × Val)

/-- `d[k]` lookup: the first binding of `k` (bindings are unique in dicts
produced by the code, but lookup is defined for every list). -/
def Dict.lookup : Dict → String → Option Val
  | [], _ => none
  | (k', v) :: rest, k => if k' = k then some v else Dict.lookup rest k

/-- `k in d`. -/
def Dict.containsKey (d : Dict) (k : String) : Bool :=
  (Dict.lookup d k).isSome

/-- `d[k] = v`: overwrite the first binding of `k` in place, otherwise append
(Python dicts keep insertion order and update in place). -/
def Dict.insert : Dict → String → Val → Dict
  | [], k, v => [(k, v)]
  | (k', v') :: rest, k, v =>
      if k' = k then (k, v) :: rest else (k', v') :: Dict.insert rest k v

/-- The exceptions `session.py` can raise, one constructor per distinct
`raise` site (plus the two implicit runtime errors reachable in `revive`).
Message text is recovered by `Err.message`. -/
inductive Err where
  /-- `begin` at status BEGUN: "You cannot re-begin a Session!" -/
  | invalidTransitionBegun
  /-- `begin` at status REVIVED: "You cannot begin a Session after reviving
  from a previous checkpoint!" -/
  | invalidTransitionRevived
  /-- `checkpoint` at status INIT. -/
  | notBegun
  /-- `__setattr__` at status INIT. -/
  | notReadySet
  /-- `__getattr__` at status INIT. -/
  | notReadyGet
  /-- `__setattr__` on an existing prop key. -/
  | propImmutable
  /-- `__getattr__`: `KeyError` naming the missing key. -/
  | notFound (key : String)
  /-- `revive` on a missing checkpoint id: `get_checkpoint` returns
  `fetchone()`'s `None`, and unpacking `blob, session_id = None` raises
  `TypeError`. -/
  | typeErrorNoneUnpack
  /-- `KeyError` from `prev['meta'][k]` in `revive`'s handler loop. -/
  | metaKeyError (key : String)
  /-- `AttributeError` on the named attribute (reading a method such as
  `items` or `revive` off a value that has none). -/
  | attributeError (attr : String)
  deriving DecidableEq, Repr

/-- The message attached to each raise site (punctuation normalised; the
distinctness of the messages, not their exact spelling, is what the claims
use). -/
def Err.message : Err → String
  | .invalidTransitionBegun => "You cannot re-begin a Session!"
  | .invalidTransitionRevived =>
      "You cannot begin a Session after reviving from a previous checkpoint!"
  | .notBegun =>
      "You will need to formally .begin() this Session before you can checkpoint results!"
  | .notReadySet =>
      "Assigning values to a Session is only allowed after .begin()ing or .revive()ing it!"
  | .notReadyGet =>
      "You cannot get props or state variables until .begin()ing or .revive()ing a Session!"
  | .propImmutable =>
      "You cannot assign to a prop after starting a Session! Perhaps you would like to use a state variable instead?"
  | .notFound key =>
      "Could not find a prop or state named " ++ key ++ ". Make sure to assign your state variables before accessing them!"
  | .typeErrorNoneUnpack => "cannot unpack non-iterable NoneType object"
  | .metaKeyError key => "KeyError: " ++ key
  | .attributeError attr => "AttributeError: " ++ attr

/-- Result of a call that either returns a value or raises. -/
inductive Res (α : Type) where
  | ok (val : α)
  | err (e : Err)
  deriving DecidableEq, Repr

/-- A meta handler as `checkpoint`/`revive` observe it. The registry maps
names to handler instances; `freeze` reads ambient interpreter state (RNG
state, `sys.version`, `sys.argv`), which is external to the session
machinery, so a handler is embedded by the value its `freeze` returns. -/
structure MetaHandler where
  freeze : Val
  deriving DecidableEq, Repr

/-- The `{'props': ..., 'state': ...}` payload of a checkpoint bundle. -/
structure Payload where
  props : Dict
  state : Dict
  deriving DecidableEq, Repr

/-- The bundle built by `Session._get_stuff` and stored (pickled) in a
checkpoint row: `{'meta': {name: handler.freeze()}, 'payload': {'props':
props, 'state': state}}`. -/
structure Stuff where
  meta : List (String × Val)
  payload : Payload
  deriving DecidableEq, Repr

/-- A row of the `sessions` table. -/
structure SessionRow where
  id : Nat
  timestamp : Nat
  name : Option String
  current_script : String
  serialized_initial_props : Dict
  deriving DecidableEq, Repr

/-- A row of the `checkpoints` table. Its `session_id` column is declared
`FOREIGN KEY REFERENCES sessions(_id) ON DELETE CASCADE ON UPDATE CASCADE`. -/
structure CheckpointRow where
  id : Nat
  timestamp : Nat
  serialized_data : Stuff
  session_id : Nat
  deriving DecidableEq, Repr

/-- The sqlite database behind `BabarServer`, together with the connection's
foreign-key enforcement switch. sqlite parses `FOREIGN KEY ... ON DELETE
CASCADE` clauses but enforces them only on connections that have run
`PRAGMA foreign_keys = ON`; the pragma is off by default on every new
connection. -/
structure Store where
  foreign_keys_on : Bool
  sessions : List SessionRow
  checkpoints : List CheckpointRow
  deriving DecidableEq, Repr

/-- sqlite's row id for an `INTEGER PRIMARY KEY` insert: one more than the
largest rowid currently in the table (`cursor.lastrowid`). -/
def nextRowId (ids : List Nat) : Nat :=
  ids.foldl max 0 + 1

/-- The store `BabarServer._get_db_conn` yields on a fresh database: the
schema of `_setup_database`, opened by plain `sqlite3.connect` with no
`PRAGMA foreign_keys = ON`, so foreign-key enforcement is off. -/
def freshStore : Store :=
  { foreign_keys_on := false, sessions := [], checkpoints := [] }

/-- `BabarServer.insert_session`: insert a row and return the store together
with the inserted row id. -/
def Store.insert_session (st : Store) (timestamp : Nat) (name : Option String)
    (current_script : String) (serialized_initial_props : Dict) : Store × Nat :=
  let rid := nextRowId (st.sessions.map (fun r => r.id))
  ({ st with
      sessions := st.sessions ++
        [{ id := rid, timestamp := timestamp, name := name,
           current_script := current_script,
           serialized_initial_props := serialized_initial_props }] },
   rid)

/-- `BabarServer.insert_checkpoint`. -/
def Store.insert_checkpoint (st : Store) (timestamp : Nat)
    (serialized_data : Stuff) (session_id : Nat) : Store × Nat :=
  let rid := nextRowId (st.checkpoints.map (fun r => r.id))
  ({ st with
      checkpoints := st.checkpoints ++
        [{ id := rid, timestamp := timestamp,
           serialized_data := serialized_data, session_id := session_id }] },
   rid)

/-- `BabarServer.get_checkpoint`: `SELECT serialized_data, session_id FROM
checkpoints WHERE _id=?` followed by `fetchone()` (which yields `None` when
no row matches). -/
def Store.get_checkpoint (st : Store) (checkpoint_id : Nat) :
    Option (Stuff × Nat) :=
  (st.checkpoints.find? (fun r => r.id == checkpoint_id)).map
    (fun r => (r.serialized_data, r.session_id))

/-- `DELETE FROM sessions WHERE _id=?` issued directly against the store (the
integrity scenario of the specification). The declared `ON DELETE CASCADE`
removes the referencing checkpoint rows only when the connection has
foreign-key enforcement on; otherwise sqlite leaves them untouched. -/
def Store.delete_session (st : Store) (session_id : Nat) : Store :=
  { st with
      sessions := st.sessions.filter (fun r => r.id ≠ session_id),
      checkpoints :=
        if st.foreign_keys_on then
          st.checkpoints.filter (fun r => r.session_id ≠ session_id)
        else
          st.checkpoints }

/-- The session lifecycle status, `Session.STATUS_*`. -/
inductive Status where
  | INIT
  | BEGUN
  | REVIVED
  deriving DecidableEq, Repr

/-- The `_internals` holder of a `Session` (the lambda that `__init__`
populates via `object.__setattr__`). `props` and `state` are `Option`s
because before `begin`/`revive` the attributes do not exist at all on the
holder (reading them would raise `AttributeError`), they are not merely
empty. `session_id` likewise only exists after `begin` or (partially
executed) `revive`. The `pickle_module`, `root_directory` and `server`
fields carry no session-varying information in the embedding (the codec is
the identity on structured values and the store is threaded explicitly), so
they are not repeated here. -/
structure Session where
  name : Option String
  meta_handlers : List (String × MetaHandler)
  status : Status
  current_script : Option String
  session_id : Option Nat
  props : Option Dict
  state : Option Dict
  deriving DecidableEq, Repr

/-- `Session.__init__` (after a successful project-root discovery): status
INIT, no props/state/session id, the given name, the default or
caller-supplied handler registry, and `sys.argv[0]` as the current script. -/
def mkSession (name : Option String) (meta_handlers : List (String × MetaHandler))
    (script : String) : Session :=
  { name := name, meta_handlers := meta_handlers, status := .INIT,
    current_script := some script, session_id := none,
    props := none, state := none }

/-- `str(x)` for the optional current-script path (`str(None)` is the string
"None"). -/
def scriptStr : Option String → String
  | some s => s
  | none => "None"

/-- `Session.__getattr__`, the interception fallback Python invokes once
normal attribute lookup has failed: at INIT it raises; otherwise it returns
`props[name]` if present, else `state[name]` if present, else raises
`KeyError` naming the key. The code reads `_self.props` before `_self.state`,
so a holder missing either attribute raises `AttributeError` (unreachable
through the public operations, which install both together). -/
def Session.getattr_dunder (s : Session) (name : String) : Res Val :=
  match s.status with
  | .INIT => .err .notReadyGet
  | _ =>
    match s.props with
    | none => .err (.attributeError "props")
    | some p =>
      match Dict.lookup p name with
      | some v => .ok v
      | none =>
        match s.state with
        | none => .err (.attributeError "state")
        | some q =>
          match Dict.lookup q name with
          | some v => .ok v
          | none => .err (.notFound name)

/-- Every name bound in the body of `class Session`: the three status
constants and all eight methods (`__init__`, `begin`, `revive`,
`checkpoint`, `__setattr__`, `__getattr__`, `__dir__`,
`_get_session_directory`, `_get_stuff`). Normal Python lookup finds each of
these on the class, so a read of one of these names never reaches the
`__getattr__` interception. -/
def sessionClassAttrs : List String :=
  ["STATUS_INIT", "STATUS_BEGUN", "STATUS_REVIVED",
   "__init__", "begin", "revive", "checkpoint",
   "__setattr__", "__getattr__", "__dir__",
   "_get_session_directory", "_get_stuff"]

/-- The only entry of the instance dictionary, installed by `__init__` via
`object.__setattr__`. -/
def sessionInstanceAttrs : List String :=
  ["_internals"]

/-- The attribute names the interpreter itself provides on every instance of
a plain class, all of them in the reserved double-underscore namespace: the
attributes of `object` (the CPython 3.8 inventory, the interpreter era of
this code), together with `__dict__`, `__module__` and `__weakref__`, which
class creation installs on every plain class. The exact inventory of these
reserved names shifts slightly across interpreter versions, so the theorems
below quantify only over names outside the whole double-underscore
namespace (`isDunderName`). -/
def objectProvidedAttrs : List String :=
  ["__class__", "__delattr__", "__dict__", "__dir__", "__doc__", "__eq__",
   "__format__", "__ge__", "__getattribute__", "__gt__", "__hash__",
   "__init__", "__init_subclass__", "__le__", "__lt__", "__module__",
   "__ne__", "__new__", "__reduce__", "__reduce_ex__", "__repr__",
   "__setattr__", "__sizeof__", "__str__", "__subclasshook__",
   "__weakref__"]

/-- Membership in Python's reserved attribute namespace: the name starts and
ends with a double underscore. (Written over the character list so that it
evaluates inside the kernel.) -/
def isDunderName (n : String) : Bool :=
  n.toList.take 2 == ['_', '_'] && n.toList.reverse.take 2 == ['_', '_']

/-- The outcome of a full Python attribute read on a session. -/
inductive AttrRead where
  /-- The name was found by normal lookup (a method, a status constant, or
  the `_internals` holder); `__getattr__` never ran. -/
  | resolved (attr : String)
  /-- The name fell through to `__getattr__` and produced a prop or state
  value. -/
  | value (v : Val)
  deriving DecidableEq, Repr

/-- A full Python attribute read `session.name`: names present in the
instance dictionary, bound in the class body, or provided by the interpreter
on every object resolve through normal lookup; only the rest reach
`Session.__getattr__`. -/
def Session.getattrFull (s : Session) (name : String) : Res AttrRead :=
  if sessionInstanceAttrs.contains name || sessionClassAttrs.contains name
      || objectProvidedAttrs.contains name then
    .ok (.resolved name)
  else
    match Session.getattr_dunder s name with
    | .ok v => .ok (.value v)
    | .err e => .err e

/-- `Session.__setattr__`: at INIT it raises; otherwise a name already in
`props` raises and nothing changes, and any other name is upserted into
`state`. Returns the post-call session and the exception, if any. -/
def Session.setattr (s : Session) (name : String) (v : Val) :
    Session × Option Err :=
  match s.status with
  | .INIT => (s, some .notReadySet)
  | _ =>
    match s.props with
    | none => (s, some (.attributeError "props"))
    | some p =>
      if Dict.containsKey p name then
        (s, some .propImmutable)
      else
        match s.state with
        | none => (s, some (.attributeError "state"))
        | some q =>
          ({ s with state := some (Dict.insert q name v) }, none)

/-- `Session._get_stuff` on dicts `p`/`q` (the code reads them off
`_self.props` and `_self.state`): freeze every registered handler into a
name-keyed map and bundle it with the props/state payload. -/
def Session.get_stuff (s : Session) (p q : Dict) : Stuff :=
  { meta := s.meta_handlers.map (fun kv => (kv.1, kv.2.freeze)),
    payload := { props := p, state := q } }

/-- `Session.begin(**props)`. At INIT: set `props` to the keyword arguments
and `state` to the empty dict, insert a session row (timestamp, name,
`str(current_script)`, pickled props) capturing the fresh id, provision the
session directory, archive the repository when the root is a git repository,
and set status BEGUN. The directory and archive steps touch only the
filesystem — row ids are fresh so the `mkdir` never hits a pre-existing
directory — and no observable of the claims depends on them, so they are not
represented. At BEGUN or REVIVED: raise before any mutation, with a distinct
message for each status. -/
def Session.begin (s : Session) (st : Store) (now : Nat) (props : Dict) :
    Session × Store × Option Err :=
  match s.status with
  | .INIT =>
    let inserted := Store.insert_session st now s.name (scriptStr s.current_script) props
    ({ s with props := some props, state := some [],
              session_id := some inserted.2, status := .BEGUN },
     inserted.1, none)
  | .BEGUN => (s, st, some .invalidTransitionBegun)
  | .REVIVED => (s, st, some .invalidTransitionRevived)

/-- `Session.checkpoint()`. Returns the post-call store, whether a
(non-fatal) `warnings.warn` fired, and the call's result. At INIT: raise. At
BEGUN: pickle `_get_stuff()` and insert a checkpoint row against the active
session id, returning the new row id. At REVIVED: warn and return `None`
without touching the store. -/
def Session.checkpoint (s : Session) (st : Store) (now : Nat) :
    Store × Bool × Res (Option Nat) :=
  match s.status with
  | .INIT => (st, false, .err .notBegun)
  | .BEGUN =>
    match s.props, s.state, s.session_id with
    | some p, some q, some sid =>
      let inserted := Store.insert_checkpoint st now (Session.get_stuff s p q) sid
      (inserted.1, false, .ok (some inserted.2))
    | _, _, _ => (st, false, .err (.attributeError "session_id"))
  | .REVIVED => (st, true, .ok none)

/-- The `for k, v in self.meta_handlers.items(): v.revive(prev['meta'][k])`
loop, run over the entries of the dictionary value that the attribute read
produced. Every entry value is a primitive (handler objects are outside the
value universe), and Python evaluates the callee `v.revive` before the
argument, so a non-empty dictionary raises `AttributeError` at its first
entry; the empty dictionary completes the loop. -/
def reviveMetaLoop : List (String × Prim) → Option Err
  | [] => none
  | _ :: _ => some (.attributeError "revive")

/-- `Session.revive(checkpoint_id)`. In source order: clear `name` and
`current_script`; fetch the checkpoint (unpacking `fetchone()`'s `None`
raises `TypeError` when the id is unknown); record the checkpoint's parent
session id as the active session id; then evaluate `self.meta_handlers` —
written with `self.`, not `_self.`, so it goes through Python attribute
lookup on the session object, where `meta_handlers` is neither an instance
nor a class attribute and therefore reaches `__getattr__`; call `.items()`
on whatever that produced and run the handler loop; finally replace `props`
and `state` with the decoded payload. The function body contains no
assignment to `_self.status`, so the status is left unchanged on every path.
Returns the post-call session (mutations made before an exception persist)
and the exception, if any. -/
def Session.revive (s : Session) (st : Store) (checkpoint_id : Nat) :
    Session × Option Err :=
  let s1 := { s with name := none, current_script := none }
  match Store.get_checkpoint st checkpoint_id with
  | none => (s1, some .typeErrorNoneUnpack)
  | some fetched =>
    let prev := fetched.1
    let s2 := { s1 with session_id := some fetched.2 }
    match Session.getattr_dunder s2 "meta_handlers" with
    | .err e => (s2, some e)
    | .ok (.prim _) => (s2, some (.attributeError "items"))
    | .ok (.vdict entries) =>
      match reviveMetaLoop entries with
      | some e => (s2, some e)
      | none =>
        ({ s2 with props := some prev.payload.props,
                   state := some prev.payload.state }, none)

/-- One public operation of the session interface, with its call-time
arguments. -/
inductive Op where
  | beginOp (now : Nat) (props : Dict)
  | checkpointOp (now : Nat)
  | reviveOp (checkpoint_id : Nat)
  | getOp (name : String)
  | setOp (name : String) (v : Val)
  deriving DecidableEq, Repr

/-- A world: the in-memory session together with the store behind it. -/
structure W where
  sess : Session
  store : Store
  deriving DecidableEq, Repr

/-- Execute one operation, keeping the post-call world (exceptions propagate
to the caller; mutations already performed persist). `__getattr__` never
mutates anything. -/
def stepOp (w : W) : Op → W
  | .beginOp now props =>
      let r := Session.begin w.sess w.store now props
      { sess := r.1, store := r.2.1 }
  | .checkpointOp now =>
      let r := Session.checkpoint w.sess w.store now
      { w with store := r.1 }
  | .reviveOp cid =>
      let r := Session.revive w.sess w.store cid
      { w with sess := r.1 }
  | .getOp _ => w
  | .setOp name v =>
      let r := Session.setattr w.sess name v
      { w with sess := r.1 }

/-- Execute a call sequence left to right. -/
def run (w : W) : List Op → W
  | [] => w
  | op :: rest => run (stepOp w op) rest

/-- A filesystem path as its list of components; `repo_path / p` and
`os.path.join(dirpath, fn)` are list append. -/
abbrev FPath := List String

mutual
/-- One entry of a directory: a file or a subdirectory with its own
entries. Mutual with `FsForest` so that the walk below is structurally
recursive. -/
inductive FsTree where
  | file (name : String)
  | dir (name : String) (entries : FsForest)
/-- The ordered list of entries of a directory. -/
inductive FsForest where
  | nil
  | cons (head : FsTree) (tail : FsForest)
end

/-- The `filenames` component of one `os.walk` triple: the file entries of a
directory, in order. -/
def FsForest.fileNames : FsForest → List String
  | .nil => []
  | .cons (.file n) rest => n :: FsForest.fileNames rest
  | .cons (.dir _ _) rest => FsForest.fileNames rest

/-- The unignored files found at one directory of the walk: every file
entry `fn`, kept when `is_path_ignored(repo_path, os.path.join(dirpath,
fn))` is false, as the absolute path `dirpath ++ [fn]`. The ignore test is
the opaque `git check-ignore` collaborator, a boolean per path (the code
asserts the only exit signals are the two boolean ones). -/
def walkHere (ignored : FPath → Bool) (dirpath : FPath) (entries : FsForest) :
    List FPath :=
  ((FsForest.fileNames entries).filter
    (fun fn => !(ignored (dirpath ++ [fn])))).map (fun fn => dirpath ++ [fn])

/-- The recursive descent of `all_unignored_files`: after a directory's own
files are collected, descend into each subdirectory in order, skipping
subdirectories that are ignored or named `.git` (the pruning of `dirnames`
in the top-down walk), and at each kept subdirectory collect its files and
recurse. -/
def walkSubdirs (ignored : FPath → Bool) (dirpath : FPath) :
    FsForest → List FPath
  | .nil => []
  | .cons (.file _) rest => walkSubdirs ignored dirpath rest
  | .cons (.dir dn sub) rest =>
      (if ignored (dirpath ++ [dn]) || dn == ".git" then []
       else
         walkHere ignored (dirpath ++ [dn]) sub ++
           walkSubdirs ignored (dirpath ++ [dn]) sub) ++
      walkSubdirs ignored dirpath rest

/-- `all_unignored_files(repo_path)`: walk the whole tree top-down from the
repository root, collecting each visited directory's unignored files (the
root's own files first) and pruning ignored and `.git` directories. Returns
absolute paths. -/
def all_unignored_files (ignored : FPath → Bool) (repo : FPath)
    (rootEntries : FsForest) : List FPath :=
  walkHere ignored repo rootEntries ++ walkSubdirs ignored repo rootEntries

/-- The `file_paths` set of `archive_git_repo`: the tracked paths from
`git ls-files` (relative, an opaque collaborator output) made absolute with
`repo_path / p`, together with the already-absolute walk output, both on the
same absolute-path footing, deduplicated (`set(...)`). -/
def archive_file_set (ignored : FPath → Bool) (repo : FPath)
    (rootEntries : FsForest) (tracked : List FPath) : List FPath :=
  (tracked.map (fun p => repo ++ p) ++
    all_unignored_files ignored repo rootEntries).dedup

/-- `archive_git_repo(repo_path, outpath)`: write every path of
`file_paths` into the zip archive under the entry name
`fp.relative_to(repo_path)`. Every member of `file_paths` is `repo ++ rel`
by construction (`Path.relative_to` raises on anything else), so the entry
name is the path with the repository prefix dropped. The archive is embedded
as its list of entry names. -/
def archive_git_repo (ignored : FPath → Bool) (repo : FPath)
    (rootEntries : FsForest) (tracked : List FPath) : List FPath :=
  (archive_file_set ignored repo rootEntries tracked).map
    (fun fp => fp.drop repo.length)

/-- The key sets of two dicts are disjoint: no key of `p` occurs in `q`. -/
def dictKeysDisjoint (p q : Dict) : Bool :=
  p.all (fun kv => !(Dict.containsKey q kv.1))

/-- A checkpoint bundle whose payload props and state have disjoint key
sets. -/
def stuffOk (x : Stuff) : Bool :=
  dictKeysDisjoint x.payload.props x.payload.state

/-- Every checkpoint blob in the store decodes to a bundle with disjoint
props/state keys (true of every blob the code ever writes). -/
def storeOk (st : Store) : Bool :=
  st.checkpoints.all (fun r => stuffOk r.serialized_data)

/-- The session-object invariant maintained by the public operations: at
INIT the props and state attributes do not exist; away from INIT the session
carries props, state and an active session id, with disjoint prop/state key
sets; and the REVIVED status is never reached, because `revive` contains no
status assignment. -/
def sessInv (s : Session) : Bool :=
  match s.status with
  | .INIT => s.props.isNone && s.state.isNone
  | .BEGUN =>
    match s.props, s.state, s.session_id with
    | some p, some q, some _ => dictKeysDisjoint p q
    | _, _, _ => false
  | .REVIVED => false

/-- The reachable-world invariant: session invariant plus store
invariant. -/
def WInv (w : W) : Bool :=
  sessInv w.sess && storeOk w.store

/-- Operations drawn from checkpoint / attribute read / attribute write
(the interleavings quantified over by the get-after-set property). -/
def Op.isCRW : Op → Bool
  | .checkpointOp _ => true
  | .getOp _ => true
  | .setOp _ _ => true
  | _ => false

/-- The value of the last write to key `k` in a call sequence, if any. -/
def lastWrite (k : String) : List Op → Option Val
  | [] => none
  | op :: rest =>
    match lastWrite k rest with
    | some v => some v
    | none =>
      match op with
      | .setOp k' v => if k' = k then some v else none
      | _ => none

/-! ## Concrete example data used by the closed theorems and witnesses -/

/-- The default handler registry of `Session.__init__`, with the ambient
values each handler would freeze in a host process that imported none of the
optional libraries. -/
def exHandlers : List (String × MetaHandler) :=
  [("numpy_seed", { freeze := Val.prim Prim.pnone }),
   ("python_seed", { freeze := Val.prim Prim.pnone }),
   ("pytorch_seed", { freeze := Val.prim Prim.pnone }),
   ("sys.version", { freeze := Val.prim (Prim.pstr "3.8.0") }),
   ("sys.argv", { freeze := Val.prim (Prim.pstr "train.py") })]

/-- A freshly constructed session over a fresh database. -/
def exWorld0 : W :=
  { sess := mkSession (some "run") exHandlers "train.py",
    store := freshStore }

/-- The store after one session ran `begin` and then `checkpoint`: one
session row (id 1) and one checkpoint row (id 1) referencing it. -/
def exStoreWithCheckpoint : Store :=
  (run exWorld0 [Op.beginOp 0 [], Op.checkpointOp 1]).store

/-- A world in which `revive` runs to completion: the session has begun,
checkpointed, and then stored the empty dictionary under the state key
`meta_handlers` — which is exactly the name `revive`'s `self.meta_handlers`
attribute read falls through to. -/
def exReviveWorld : W :=
  run exWorld0
    [Op.beginOp 0 [], Op.checkpointOp 1,
     Op.setOp "meta_handlers" (Val.vdict [])]

/-- A session object in the REVIVED status with decoded props and state, as
the source intends `revive` to leave it. -/
def exRevivedSess : Session :=
  { name := none, meta_handlers := exHandlers, status := .REVIVED,
    current_script := none, session_id := some 1,
    props := some [("lr", Val.prim (Prim.pstr "0.1"))],
    state := some [("step", Val.prim (Prim.pint 1))] }

/-- A begun session: the example world after `begin(lr=...)`. -/
def exBegunSess : Session :=
  (run exWorld0 [Op.beginOp 0 [("lr", Val.prim (Prim.pstr "0.1"))]]).sess

/-- The example repository of the archiver property: one tracked file
`a.txt`, one untracked-and-unignored file `b.txt`, one ignored untracked
file `c.txt`. -/
def exForest : FsForest :=
  .cons (.file "a.txt") (.cons (.file "b.txt") (.cons (.file "c.txt") .nil))

/-- The ignore collaborator of the example repository: exactly `c.txt` is
ignored. -/
def exIgnored : FPath → Bool :=
  fun p => p == ["repo", "c.txt"]

/-! ## Dictionary lemmas -/

theorem Dict.lookup_insert_self (d : Dict) (k : String) (v : Val) :
    Dict.lookup (Dict.insert d k v) k = some v := by
  induction d with
  | nil => simp [Dict.insert, Dict.lookup]
  | cons kv rest ih =>
    obtain ⟨k', v'⟩ := kv
    by_cases h : k' = k
    · subst h
      simp [Dict.insert, Dict.lookup]
    · simp [Dict.insert, Dict.lookup, h, ih]

theorem Dict.lookup_insert_ne (d : Dict) (k j : String) (v : Val)
    (h : j ≠ k) :
    Dict.lookup (Dict.insert d k v) j = Dict.lookup d j := by
  induction d with
  | nil => simp [Dict.insert, Dict.lookup, Ne.symm h]
  | cons kv rest ih =>
    obtain ⟨k', v'⟩ := kv
    by_cases hk : k' = k
    · subst hk
      simp [Dict.insert, Dict.lookup, Ne.symm h]
    · by_cases hj : k' = j
      · subst hj
        simp [Dict.insert, Dict.lookup, hk]
      · simp [Dict.insert, Dict.lookup, hk, hj, ih]

theorem Dict.containsKey_cons_false {x : String × Val} {rest : Dict}
    {k : String} (h : Dict.containsKey (x :: rest) k = false) :
    x.1 ≠ k ∧ Dict.containsKey rest k = false := by
  obtain ⟨k', v'⟩ := x
  by_cases hk : k' = k
  · subst hk
    simp [Dict.containsKey, Dict.lookup] at h
  · refine ⟨hk, ?_⟩
    simpa [Dict.containsKey, Dict.lookup, hk] using h

theorem Dict.containsKey_false_forall {d : Dict} {k : String}
    (h : Dict.containsKey d k = false) : ∀ kv ∈ d, kv.1 ≠ k := by
  induction d with
  | nil => simp
  | cons x rest ih =>
    intro kv hkv
    obtain ⟨h1, h2⟩ := Dict.containsKey_cons_false h
    rcases List.mem_cons.mp hkv with rfl | hmem
    · exact h1
    · exact ih h2 kv hmem

theorem Dict.lookup_eq_none {d : Dict} {k : String}
    (h : Dict.containsKey d k = false) : Dict.lookup d k = none := by
  cases hl : Dict.lookup d k with
  | none => rfl
  | some v =>
    rw [Dict.containsKey, hl] at h
    simp at h

theorem dictKeysDisjoint_nil (p : Dict) : dictKeysDisjoint p [] = true := by
  rw [dictKeysDisjoint, List.all_eq_true]
  intro kv _
  rfl

theorem dictKeysDisjoint_insert (p q : Dict) (k : String) (v : Val)
    (hd : dictKeysDisjoint p q = true) (hk : Dict.containsKey p k = false) :
    dictKeysDisjoint p (Dict.insert q k v) = true := by
  rw [dictKeysDisjoint, List.all_eq_true] at hd ⊢
  intro kv hkv
  have hne : kv.1 ≠ k := Dict.containsKey_false_forall hk kv hkv
  have hq := hd kv hkv
  rw [Dict.containsKey, Dict.lookup_insert_ne q k kv.1 v hne]
  exact hq

/-- Every interpreter-provided attribute name lies in the reserved
double-underscore namespace. -/
theorem objectProvidedAttrs_all_dunder :
    objectProvidedAttrs.all isDunderName = true := by
  decide

/-- A name outside the double-underscore namespace is none of the
interpreter-provided attributes. -/
theorem not_dunder_not_objectProvided {k : String}
    (h : isDunderName k = false) :
    objectProvidedAttrs.contains k = false := by
  cases hc : objectProvidedAttrs.contains k with
  | false => rfl
  | true =>
    exfalso
    have hmem : k ∈ objectProvidedAttrs := by simpa using hc
    have hall := objectProvidedAttrs_all_dunder
    rw [List.all_eq_true] at hall
    have hk2 := hall k hmem
    rw [h] at hk2
    exact Bool.noConfusion hk2

/-! ## Store lemmas -/

theorem storeOk_get_checkpoint {st : Store} {cid : Nat} {x : Stuff × Nat}
    (hok : storeOk st = true)
    (h : Store.get_checkpoint st cid = some x) :
    stuffOk x.1 = true := by
  rw [Store.get_checkpoint] at h
  cases hf : st.checkpoints.find? (fun r => r.id == cid) with
  | none => rw [hf] at h; simp at h
  | some r =>
    rw [hf] at h
    have hx2 : some (r.serialized_data, r.session_id) = some x := h
    have hx3 : (r.serialized_data, r.session_id) = x := Option.some.inj hx2
    have hmem : r ∈ st.checkpoints := List.mem_of_find?_eq_some hf
    rw [storeOk, List.all_eq_true] at hok
    have := hok r hmem
    rw [← hx3]
    exact this

theorem storeOk_insert_checkpoint {st : Store} {now : Nat} {x : Stuff}
    {sid : Nat} (hok : storeOk st = true) (hx : stuffOk x = true) :
    storeOk (Store.insert_checkpoint st now x sid).1 = true := by
  rw [storeOk, Store.insert_checkpoint]
  simp only [List.all_append, List.all_cons, List.all_nil]
  rw [storeOk] at hok
  simp [hok, hx]

/-! ## Invariant preservation -/

theorem begin_preserves_inv {s : Session} {st : Store} (now : Nat) (pr : Dict)
    (hs : sessInv s = true) (hst : storeOk st = true) :
    sessInv (Session.begin s st now pr).1 = true ∧
    storeOk (Session.begin s st now pr).2.1 = true := by
  obtain ⟨nm, mh, stat, cs, sid, props, state⟩ := s
  cases stat with
  | INIT => exact ⟨dictKeysDisjoint_nil pr, hst⟩
  | BEGUN => exact ⟨hs, hst⟩
  | REVIVED => exact ⟨hs, hst⟩

theorem checkpoint_storeOk {s : Session} {st : Store} (now : Nat)
    (hs : sessInv s = true) (hst : storeOk st = true) :
    storeOk (Session.checkpoint s st now).1 = true := by
  obtain ⟨nm, mh, stat, cs, sid, props, state⟩ := s
  cases stat with
  | INIT => exact hst
  | REVIVED => exact hst
  | BEGUN =>
    cases props with
    | none => exact Bool.noConfusion hs
    | some p =>
      cases state with
      | none => exact Bool.noConfusion hs
      | some q =>
        cases sid with
        | none => exact Bool.noConfusion hs
        | some i => exact storeOk_insert_checkpoint hst hs

theorem setattr_preserves_inv {s : Session} (n : String) (v : Val)
    (hs : sessInv s = true) :
    sessInv (Session.setattr s n v).1 = true := by
  obtain ⟨nm, mh, stat, cs, sid, props, state⟩ := s
  cases stat with
  | INIT => exact hs
  | REVIVED => exact Bool.noConfusion hs
  | BEGUN =>
    cases props with
    | none => exact Bool.noConfusion hs
    | some p =>
      cases state with
      | none => exact Bool.noConfusion hs
      | some q =>
        cases sid with
        | none => exact Bool.noConfusion hs
        | some i =>
          simp only [Session.setattr]
          cases hk : Dict.containsKey p n with
          | true => exact hs
          | false => exact dictKeysDisjoint_insert p q n v hs hk

theorem revive_preserves_inv {s : Session} {st : Store} (cid : Nat)
    (hs : sessInv s = true) (hst : storeOk st = true) :
    sessInv (Session.revive s st cid).1 = true := by
  obtain ⟨nm, mh, stat, cs, sid, props, state⟩ := s
  simp only [Session.revive]
  cases hg : Store.get_checkpoint st cid with
  | none =>
    cases stat with
    | INIT => exact hs
    | BEGUN => exact hs
    | REVIVED => exact Bool.noConfusion hs
  | some fetched =>
    obtain ⟨prev, sid'⟩ := fetched
    cases stat with
    | REVIVED => exact Bool.noConfusion hs
    | INIT => exact hs
    | BEGUN =>
      cases props with
      | none => exact Bool.noConfusion hs
      | some p =>
        cases state with
        | none => exact Bool.noConfusion hs
        | some q =>
          cases sid with
          | none => exact Bool.noConfusion hs
          | some i =>
            simp only [Session.getattr_dunder]
            cases hl : Dict.lookup p "meta_handlers" with
            | some v =>
              cases v with
              | prim pp => exact hs
              | vdict entries =>
                cases entries with
                | nil => exact storeOk_get_checkpoint hst hg
                | cons e rest => exact hs
            | none =>
              cases hl2 : Dict.lookup q "meta_handlers" with
              | some v =>
                cases v with
                | prim pp => exact hs
                | vdict entries =>
                  cases entries with
                  | nil => exact storeOk_get_checkpoint hst hg
                  | cons e rest => exact hs
              | none => exact hs

theorem stepOp_WInv (w : W) (op : Op) (h : WInv w = true) :
    WInv (stepOp w op) = true := by
  simp only [WInv, Bool.and_eq_true] at h
  obtain ⟨hs, hst⟩ := h
  cases op with
  | beginOp now pr =>
    obtain ⟨hs', hst'⟩ := begin_preserves_inv now pr hs hst
    exact (Bool.and_eq_true _ _).mpr ⟨hs', hst'⟩
  | checkpointOp now =>
    exact (Bool.and_eq_true _ _).mpr ⟨hs, checkpoint_storeOk now hs hst⟩
  | reviveOp cid =>
    exact (Bool.and_eq_true _ _).mpr ⟨revive_preserves_inv cid hs hst, hst⟩
  | getOp n =>
    exact (Bool.and_eq_true _ _).mpr ⟨hs, hst⟩
  | setOp n v =>
    exact (Bool.and_eq_true _ _).mpr ⟨setattr_preserves_inv n v hs, hst⟩

theorem run_WInv (ops : List Op) (w : W) (h : WInv w = true) :
    WInv (run w ops) = true := by
  induction ops generalizing w with
  | nil => exact h
  | cons op rest ih => exact ih (stepOp w op) (stepOp_WInv w op h)

/-- The get-after-set induction: over any sequence of checkpoint / read /
write calls from a begun world, reading key `k` (a non-prop key) yields the
last value written to `k` in the sequence, or whatever it yielded at the
start when the sequence never writes `k`. -/
theorem run_crw_get (k : String) (ops : List Op) :
    ∀ (w : W) (p : Dict),
      ops.all Op.isCRW = true →
      w.sess.status = .BEGUN →
      w.sess.props = some p →
      Dict.containsKey p k = false →
      w.sess.state.isSome = true →
      Session.getattr_dunder (run w ops).sess k =
        (match lastWrite k ops with
         | some v => Res.ok v
         | none => Session.getattr_dunder w.sess k) := by
  induction ops with
  | nil =>
    intro w p _ _ _ _ _
    rfl
  | cons op rest ih =>
    intro w p hall hstat hp hk hq
    rw [List.all_cons, Bool.and_eq_true] at hall
    obtain ⟨hop, hrest⟩ := hall
    obtain ⟨s, st⟩ := w
    obtain ⟨nm, mh, stat, cs, sid, props, state⟩ := s
    dsimp only at hstat hp hq
    subst hstat
    subst hp
    cases state with
    | none => exact Bool.noConfusion hq
    | some q0 =>
    cases op with
    | beginOp now pr => exact Bool.noConfusion hop
    | reviveOp cid => exact Bool.noConfusion hop
    | checkpointOp now =>
      have h1 := ih (stepOp ⟨⟨nm, mh, .BEGUN, cs, sid, some p, some q0⟩, st⟩
        (.checkpointOp now)) p hrest rfl rfl hk rfl
      cases hlw : lastWrite k rest with
      | some v =>
        rw [hlw] at h1
        simp only [lastWrite, hlw]
        exact h1
      | none =>
        rw [hlw] at h1
        simp only [lastWrite, hlw]
        exact h1
    | getOp n =>
      have h1 := ih (stepOp ⟨⟨nm, mh, .BEGUN, cs, sid, some p, some q0⟩, st⟩
        (.getOp n)) p hrest rfl rfl hk rfl
      cases hlw : lastWrite k rest with
      | some v =>
        rw [hlw] at h1
        simp only [lastWrite, hlw]
        exact h1
      | none =>
        rw [hlw] at h1
        simp only [lastWrite, hlw]
        exact h1
    | setOp k' v =>
      cases hk' : Dict.containsKey p k' with
      | true =>
        have hne : k' ≠ k := by
          intro e
          rw [e, hk] at hk'
          exact Bool.noConfusion hk'
        have hsess :
            (stepOp ⟨⟨nm, mh, .BEGUN, cs, sid, some p, some q0⟩, st⟩
              (.setOp k' v)).sess =
            ⟨nm, mh, .BEGUN, cs, sid, some p, some q0⟩ := by
          simp [stepOp, Session.setattr, hk']
        have h1 := ih (stepOp ⟨⟨nm, mh, .BEGUN, cs, sid, some p, some q0⟩, st⟩
          (.setOp k' v)) p hrest (by rw [hsess]) (by rw [hsess]) hk
          (by rw [hsess]; rfl)
        rw [hsess] at h1
        rw [run]
        cases hlw : lastWrite k rest with
        | some u =>
          rw [hlw] at h1
          simp only [lastWrite, hlw]
          exact h1
        | none =>
          rw [hlw] at h1
          simp [lastWrite, hlw, hne]
          exact h1
      | false =>
        have hsess :
            (stepOp ⟨⟨nm, mh, .BEGUN, cs, sid, some p, some q0⟩, st⟩
              (.setOp k' v)).sess =
            ⟨nm, mh, .BEGUN, cs, sid, some p,
              some (Dict.insert q0 k' v)⟩ := by
          simp [stepOp, Session.setattr, hk']
        have h1 := ih (stepOp ⟨⟨nm, mh, .BEGUN, cs, sid, some p, some q0⟩, st⟩
          (.setOp k' v)) p hrest (by rw [hsess]) (by rw [hsess]) hk
          (by rw [hsess]; rfl)
        rw [hsess] at h1
        rw [run]
        cases hlw : lastWrite k rest with
        | some u =>
          rw [hlw] at h1
          simp only [lastWrite, hlw]
          exact h1
        | none =>
          rw [hlw] at h1
          by_cases hkk : k' = k
          · subst hkk
            simp only [lastWrite, hlw]
            rw [h1]
            simp [Session.getattr_dunder, Dict.lookup_eq_none hk,
              Dict.lookup_insert_self]
          · simp only [lastWrite, hlw]
            rw [h1]
            simp [Session.getattr_dunder, Dict.lookup_eq_none hk,
              Dict.lookup_insert_ne q0 k' k v (Ne.symm hkk), hkk]

/-- From the session invariant alone: props and state keys are disjoint, and
writing to any existing prop key raises `PropImmutable` and returns the
session unchanged. -/
theorem sessInv_disjoint_and_setattr {s : Session} (h : sessInv s = true) :
    (∀ p q, s.props = some p → s.state = some q →
      dictKeysDisjoint p q = true) ∧
    (∀ k p v, s.props = some p → Dict.containsKey p k = true →
      Session.setattr s k v = (s, some .propImmutable)) := by
  obtain ⟨n2, m2, stat2, cs2, sid2, props2, state2⟩ := s
  constructor
  · intro p q hp hq
    dsimp only at hp hq
    subst hp
    subst hq
    cases stat2 with
    | INIT => exact Bool.noConfusion h
    | REVIVED => exact Bool.noConfusion h
    | BEGUN =>
      cases sid2 with
      | none => exact Bool.noConfusion h
      | some i => exact h
  · intro k p v hp hkk
    dsimp only at hp
    subst hp
    cases stat2 with
    | INIT => exact Bool.noConfusion h
    | REVIVED => exact Bool.noConfusion h
    | BEGUN => simp [Session.setattr, hkk]

/-! ## The claims -/

/-- C1 (code bug in `Session.revive`): the claim says a `revive(checkpoint_id)`
call that returns leaves the session with status REVIVED. In the code the
function body contains no assignment to `_self.status`, so a completed revive
leaves the status exactly as it was. Exhibited on a concretely reachable
world (`begin`, `checkpoint`, then a state write of an empty dictionary under
the key `meta_handlers`, which lets the handler loop run): `revive(1)` raises
nothing and the status afterwards is still BEGUN, not REVIVED. -/
theorem c1_revive_completes_without_entering_revived :
    (Session.revive exReviveWorld.sess exReviveWorld.store 1).2 = none ∧
    (Session.revive exReviveWorld.sess exReviveWorld.store 1).1.status =
      .BEGUN := by
  decide

/-- C2 (code bug in `Session.revive`): the claim says revive fails exactly
when the checkpoint id is absent, failing with NotFound, and otherwise
completes. In the code line `for k, v in self.meta_handlers.items()` reads
`self.meta_handlers` (not `_self.meta_handlers`), which goes through
`__getattr__`: from INIT the call therefore raises the not-ready error, and
from BEGUN it raises `KeyError` on the name `meta_handlers`, even though the
checkpoint row with id 1 exists; conversely a missing id raises `TypeError`
from unpacking `None`, not a NotFound/KeyError. -/
theorem c2_revive_fails_even_when_checkpoint_exists :
    (Store.get_checkpoint exStoreWithCheckpoint 1).isSome = true ∧
    (Session.revive (mkSession none exHandlers "replay.py")
      exStoreWithCheckpoint 1).2 = some Err.notReadyGet ∧
    (Session.revive exBegunSess exStoreWithCheckpoint 1).2 =
      some (Err.notFound "meta_handlers") ∧
    (Session.revive (mkSession none exHandlers "replay.py")
      exStoreWithCheckpoint 99).2 = some Err.typeErrorNoneUnpack := by
  decide

/-- C3 (code bug in `BabarServer._get_db_conn`): the claim says deleting a
session row deletes every checkpoint row referencing it. The schema declares
`ON DELETE CASCADE`, but the connection is opened without
`PRAGMA foreign_keys = ON`, and sqlite leaves foreign keys unenforced by
default — so after inserting session 1 and checkpoint 1 through the code's
own operations and deleting session 1, the sessions table is empty while the
checkpoint row referencing session 1 survives as an orphan. -/
theorem c3_delete_session_leaves_orphan_checkpoint :
    exStoreWithCheckpoint.foreign_keys_on = false ∧
    (Store.delete_session exStoreWithCheckpoint 1).sessions = [] ∧
    (Store.delete_session exStoreWithCheckpoint 1).checkpoints.map
      (fun r => r.session_id) = [1] := by
  decide

/-- C4: for every session whose status is REVIVED, `checkpoint()` returns
the store unchanged (so the checkpoint table's row count is unchanged),
emits the non-fatal warning, and returns null. -/
theorem c4_checkpoint_after_revive_is_noop (s : Session) (st : Store)
    (now : Nat) (h : s.status = .REVIVED) :
    Session.checkpoint s st now = (st, true, .ok none) := by
  obtain ⟨n2, m2, stat2, cs2, sid2, props2, state2⟩ := s
  dsimp only at h
  subst h
  rfl

theorem c4_checkpoint_after_revive_is_noop_witness :
    exRevivedSess.status = .REVIVED ∧
    Session.checkpoint exRevivedSess exStoreWithCheckpoint 5 =
      (exStoreWithCheckpoint, true, .ok none) :=
  ⟨rfl, c4_checkpoint_after_revive_is_noop exRevivedSess
    exStoreWithCheckpoint 5 rfl⟩

/-- C5: calling `begin` when the status is BEGUN or REVIVED fails with the
corresponding invalid-transition error — distinct messages for the two
statuses — and returns the session and store exactly as they were, so
nothing is mutated and no row is inserted. -/
theorem c5_restart_fails_invalid_transition (s : Session) (st : Store)
    (now : Nat) (pr : Dict) :
    (s.status = .BEGUN →
      Session.begin s st now pr = (s, st, some .invalidTransitionBegun)) ∧
    (s.status = .REVIVED →
      Session.begin s st now pr = (s, st, some .invalidTransitionRevived)) ∧
    Err.message .invalidTransitionBegun ≠
      Err.message .invalidTransitionRevived := by
  refine ⟨fun h => ?_, fun h => ?_, by decide⟩
  · obtain ⟨n2, m2, stat2, cs2, sid2, props2, state2⟩ := s
    dsimp only at h
    subst h
    rfl
  · obtain ⟨n2, m2, stat2, cs2, sid2, props2, state2⟩ := s
    dsimp only at h
    subst h
    rfl

theorem c5_restart_fails_invalid_transition_witness :
    Session.begin exBegunSess exStoreWithCheckpoint 7 [] =
      (exBegunSess, exStoreWithCheckpoint, some .invalidTransitionBegun) ∧
    Session.begin exRevivedSess exStoreWithCheckpoint 7 [] =
      (exRevivedSess, exStoreWithCheckpoint, some .invalidTransitionRevived) :=
  ⟨(c5_restart_fails_invalid_transition exBegunSess
      exStoreWithCheckpoint 7 []).1 rfl,
   (c5_restart_fails_invalid_transition exRevivedSess
      exStoreWithCheckpoint 7 []).2.1 rfl⟩

/-- C6: along every call sequence from a fresh session over a store whose
checkpoint blobs are well-formed, the props keys and state keys of the
reached session are disjoint, and a write to any existing prop key fails
with `PropImmutable` leaving the session (props and state included)
unchanged, whatever the reached status. -/
theorem c6_props_state_disjoint_and_prop_writes_rejected
    (nm : Option String) (handlers : List (String × MetaHandler))
    (script : String) (st0 : Store) (ops : List Op)
    (hst : storeOk st0 = true) :
    (∀ p q,
      (run ⟨mkSession nm handlers script, st0⟩ ops).sess.props = some p →
      (run ⟨mkSession nm handlers script, st0⟩ ops).sess.state = some q →
      dictKeysDisjoint p q = true) ∧
    (∀ k p v,
      (run ⟨mkSession nm handlers script, st0⟩ ops).sess.props = some p →
      Dict.containsKey p k = true →
      Session.setattr (run ⟨mkSession nm handlers script, st0⟩ ops).sess k v =
        ((run ⟨mkSession nm handlers script, st0⟩ ops).sess,
         some .propImmutable)) := by
  have hinv := run_WInv ops ⟨mkSession nm handlers script, st0⟩
    ((Bool.and_eq_true _ _).mpr ⟨rfl, hst⟩)
  exact sessInv_disjoint_and_setattr ((Bool.and_eq_true _ _).mp hinv).1

theorem c6_props_state_disjoint_and_prop_writes_rejected_witness :
    storeOk freshStore = true ∧
    dictKeysDisjoint [("lr", Val.prim (Prim.pstr "0.1"))]
      [("step", Val.prim (Prim.pint 1))] = true ∧
    Session.setattr
      (run ⟨mkSession (some "run") exHandlers "train.py", freshStore⟩
        [Op.beginOp 0 [("lr", Val.prim (Prim.pstr "0.1"))],
         Op.setOp "step" (Val.prim (Prim.pint 1))]).sess
      "lr" (Val.prim Prim.pnone) =
      ((run ⟨mkSession (some "run") exHandlers "train.py", freshStore⟩
        [Op.beginOp 0 [("lr", Val.prim (Prim.pstr "0.1"))],
         Op.setOp "step" (Val.prim (Prim.pint 1))]).sess,
       some Err.propImmutable) := by
  refine ⟨rfl, ?_, ?_⟩
  · exact (c6_props_state_disjoint_and_prop_writes_rejected (some "run")
      exHandlers "train.py" freshStore
      [Op.beginOp 0 [("lr", Val.prim (Prim.pstr "0.1"))],
       Op.setOp "step" (Val.prim (Prim.pint 1))] rfl).1
      [("lr", Val.prim (Prim.pstr "0.1"))]
      [("step", Val.prim (Prim.pint 1))] rfl rfl
  · exact (c6_props_state_disjoint_and_prop_writes_rejected (some "run")
      exHandlers "train.py" freshStore
      [Op.beginOp 0 [("lr", Val.prim (Prim.pstr "0.1"))],
       Op.setOp "step" (Val.prim (Prim.pint 1))] rfl).2
      "lr" [("lr", Val.prim (Prim.pstr "0.1"))] (Val.prim Prim.pnone)
      rfl (by decide)

/-- C7 counterexample: the claim says that after `start`, whenever the most
recent write to key `k` was `set(k, v)` and `k` is not a props key, `get(k)`
returns `v` — where the program's `get` is the attribute read. For `k` =
`checkpoint` (not a props key) the write succeeds and lands in the state
map, yet the attribute read finds the class method `checkpoint` by normal
lookup before `__getattr__` is ever consulted and returns the bound method,
not `v`. -/
theorem c7_counterexample_class_attr_shadow :
    Dict.containsKey [] "checkpoint" = false ∧
    [Op.setOp "checkpoint" (Val.prim (Prim.pint 5))].all Op.isCRW = true ∧
    lastWrite "checkpoint" [Op.setOp "checkpoint" (Val.prim (Prim.pint 5))] =
      some (Val.prim (Prim.pint 5)) ∧
    (run (stepOp ⟨mkSession (some "run") exHandlers "train.py", freshStore⟩
        (.beginOp 0 []))
      [Op.setOp "checkpoint" (Val.prim (Prim.pint 5))]).sess.state =
      some [("checkpoint", Val.prim (Prim.pint 5))] ∧
    Session.getattrFull
      (run (stepOp ⟨mkSession (some "run") exHandlers "train.py", freshStore⟩
        (.beginOp 0 []))
        [Op.setOp "checkpoint" (Val.prim (Prim.pint 5))]).sess "checkpoint" =
      .ok (.resolved "checkpoint") ∧
    Session.getattrFull
      (run (stepOp ⟨mkSession (some "run") exHandlers "train.py", freshStore⟩
        (.beginOp 0 []))
        [Op.setOp "checkpoint" (Val.prim (Prim.pint 5))]).sess "checkpoint" ≠
      .ok (.value (Val.prim (Prim.pint 5))) := by
  decide

/-- C7 as amended: after a successful `begin`, along any interleaving of
checkpoint, read and write calls, if the most recent write to key `k` set it
to `v`, `k` is not a props key, and `k` is not a name that normal Python
lookup resolves on the session object (not the instance attribute
`_internals`, not a name bound in the `Session` class body, and not in the
interpreter's reserved double-underscore namespace), then the full attribute
read of `k` returns `v`. -/
theorem c7_get_after_set_full_read (nm : Option String)
    (handlers : List (String × MetaHandler)) (script : String) (st0 : Store)
    (now : Nat) (initProps : Dict) (ops : List Op) (k : String) (v : Val)
    (hall : ops.all Op.isCRW = true)
    (hlw : lastWrite k ops = some v)
    (hk : Dict.containsKey initProps k = false)
    (hi : sessionInstanceAttrs.contains k = false)
    (hc : sessionClassAttrs.contains k = false)
    (hd : isDunderName k = false) :
    Session.getattrFull
      (run (stepOp ⟨mkSession nm handlers script, st0⟩ (.beginOp now initProps))
        ops).sess k = .ok (.value v) := by
  have h := run_crw_get k ops
    (stepOp ⟨mkSession nm handlers script, st0⟩ (.beginOp now initProps))
    initProps hall rfl rfl hk rfl
  rw [hlw] at h
  have h2 : Session.getattr_dunder
      (run (stepOp ⟨mkSession nm handlers script, st0⟩ (.beginOp now initProps))
        ops).sess k = .ok v := h
  simp [Session.getattrFull, hi, hc, not_dunder_not_objectProvided hd, h2]
  exact ⟨⟨by simpa using hi, by simpa using hc⟩,
    by simpa using not_dunder_not_objectProvided hd⟩

theorem c7_get_after_set_full_read_witness :
    isDunderName "step" = false ∧
    Session.getattrFull
      (run (stepOp ⟨mkSession (some "run") exHandlers "train.py", freshStore⟩
        (.beginOp 0 [("lr", Val.prim (Prim.pstr "0.1"))]))
        [Op.setOp "step" (Val.prim (Prim.pint 1)), Op.checkpointOp 1,
         Op.setOp "step" (Val.prim (Prim.pint 2)), Op.getOp "lr"]).sess
      "step" = .ok (.value (Val.prim (Prim.pint 2))) :=
  ⟨by decide,
   c7_get_after_set_full_read (some "run") exHandlers "train.py"
    freshStore 0 [("lr", Val.prim (Prim.pstr "0.1"))]
    [Op.setOp "step" (Val.prim (Prim.pint 1)), Op.checkpointOp 1,
     Op.setOp "step" (Val.prim (Prim.pint 2)), Op.getOp "lr"]
    "step" (Val.prim (Prim.pint 2)) rfl rfl rfl (by decide) (by decide)
    (by decide)⟩

/-- C8: `checkpoint()` from INIT fails with NotBegun leaving the store
untouched; from BEGUN it freezes every registered handler into a name-keyed
map, bundles it with the props/state payload, inserts exactly one checkpoint
row carrying the active session id and the current timestamp, and returns
the id of that fresh row. -/
theorem c8_checkpoint_init_raises_begun_inserts (s : Session) (st : Store)
    (now : Nat) :
    (s.status = .INIT →
      Session.checkpoint s st now = (st, false, .err .notBegun)) ∧
    (∀ p q sid, s.status = .BEGUN → s.props = some p → s.state = some q →
      s.session_id = some sid →
      Session.checkpoint s st now =
        ({ st with checkpoints := st.checkpoints ++
            [{ id := nextRowId (st.checkpoints.map (fun r => r.id)),
               timestamp := now,
               serialized_data := Session.get_stuff s p q,
               session_id := sid }] },
         false,
         .ok (some (nextRowId (st.checkpoints.map (fun r => r.id)))))) ∧
    (∀ p q, Session.get_stuff s p q =
      { meta := s.meta_handlers.map (fun kv => (kv.1, kv.2.freeze)),
        payload := { props := p, state := q } }) := by
  refine ⟨fun h => ?_, fun p q sid h hp hq hsid => ?_, fun p q => rfl⟩
  · obtain ⟨n2, m2, stat2, cs2, sid2, props2, state2⟩ := s
    dsimp only at h
    subst h
    rfl
  · obtain ⟨n2, m2, stat2, cs2, sid2, props2, state2⟩ := s
    dsimp only at h hp hq hsid
    subst h
    subst hp
    subst hq
    subst hsid
    rfl

theorem c8_checkpoint_init_raises_begun_inserts_witness :
    Session.checkpoint exBegunSess exStoreWithCheckpoint 9 =
      ({ exStoreWithCheckpoint with
          checkpoints := exStoreWithCheckpoint.checkpoints ++
            [{ id := nextRowId
                  (exStoreWithCheckpoint.checkpoints.map (fun r => r.id)),
               timestamp := 9,
               serialized_data := Session.get_stuff exBegunSess
                 [("lr", Val.prim (Prim.pstr "0.1"))] [],
               session_id := 1 }] },
       false,
       .ok (some (nextRowId
         (exStoreWithCheckpoint.checkpoints.map (fun r => r.id))))) :=
  (c8_checkpoint_init_raises_begun_inserts exBegunSess
    exStoreWithCheckpoint 9).2.1
    [("lr", Val.prim (Prim.pstr "0.1"))] [] 1 rfl rfl rfl rfl

/-- C9: the archiver's file set is exactly the union of the tracked set
(made absolute with the repository prefix) and the walked unignored set
(absolute already) — both on the same absolute footing before
deduplication — and each archive entry is named by its path relative to the
repository root; on the example repository with tracked `a.txt`,
untracked-unignored `b.txt` and ignored `c.txt`, the archive holds exactly
the entries `a.txt` and `b.txt`. -/
theorem c9_archive_is_union_of_tracked_and_unignored :
    (∀ (ignored : FPath → Bool) (repo : FPath) (rootEntries : FsForest)
       (tracked : List FPath) (x : FPath),
       x ∈ archive_file_set ignored repo rootEntries tracked ↔
         x ∈ tracked.map (fun p => repo ++ p) ∨
           x ∈ all_unignored_files ignored repo rootEntries) ∧
    (∀ (ignored : FPath → Bool) (repo : FPath) (rootEntries : FsForest)
       (tracked : List FPath),
       archive_git_repo ignored repo rootEntries tracked =
         (archive_file_set ignored repo rootEntries tracked).map
           (fun fp => fp.drop repo.length)) ∧
    archive_git_repo exIgnored ["repo"] exForest [["a.txt"]] =
      [["a.txt"], ["b.txt"]] := by
  refine ⟨?_, fun _ _ _ _ => rfl, by decide⟩
  intro ignored repo rootEntries tracked x
  rw [archive_file_set, List.mem_dedup, List.mem_append]

/-- C10 counterexample: the claim says every attribute name that is neither
a props key nor a state key fails with NotFound on a non-INIT session; but a
name that normal Python lookup finds on the class — here the method name
`checkpoint`, which is no prop or state key of the session — resolves to the
class attribute and does not fail. -/
theorem c10_counterexample_class_attr_resolves :
    exBegunSess.status ≠ .INIT ∧
    exBegunSess.props = some [("lr", Val.prim (Prim.pstr "0.1"))] ∧
    exBegunSess.state = some [] ∧
    Dict.containsKey [("lr", Val.prim (Prim.pstr "0.1"))] "checkpoint" =
      false ∧
    Dict.containsKey [] "checkpoint" = false ∧
    Session.getattrFull exBegunSess "checkpoint" =
      .ok (.resolved "checkpoint") ∧
    Session.getattrFull exBegunSess "checkpoint" ≠
      .err (.notFound "checkpoint") := by
  decide

/-- C10 as amended: on every session not in INIT, reading an attribute whose
name is not found by normal Python lookup — not the instance attribute
`_internals`, not one of the names bound in the `Session` class body (its
methods and STATUS constants), and not in the interpreter's reserved
double-underscore namespace — and that is neither a props key nor a state
key fails with NotFound naming that key; in particular names held on the
internal holder, such as `meta_handlers`, `status` or `name`, resolve
exclusively through the props and state maps. -/
theorem c10_nonclass_names_fail_notfound (s : Session) (n : String)
    (p q : Dict)
    (hs : s.status ≠ .INIT)
    (hp : s.props = some p) (hq : s.state = some q)
    (hi : sessionInstanceAttrs.contains n = false)
    (hc : sessionClassAttrs.contains n = false)
    (hd : isDunderName n = false)
    (hkp : Dict.containsKey p n = false)
    (hkq : Dict.containsKey q n = false) :
    Session.getattrFull s n = .err (.notFound n) := by
  have ho := not_dunder_not_objectProvided hd
  obtain ⟨n2, m2, stat2, cs2, sid2, props2, state2⟩ := s
  dsimp only at hs hp hq
  subst hp
  subst hq
  cases stat2 with
  | INIT => exact absurd rfl hs
  | BEGUN =>
    simp [Session.getattrFull, hi, hc, ho, Session.getattr_dunder,
      Dict.lookup_eq_none hkp, Dict.lookup_eq_none hkq]
    exact ⟨⟨by simpa using hi, by simpa using hc⟩, by simpa using ho⟩
  | REVIVED =>
    simp [Session.getattrFull, hi, hc, ho, Session.getattr_dunder,
      Dict.lookup_eq_none hkp, Dict.lookup_eq_none hkq]
    exact ⟨⟨by simpa using hi, by simpa using hc⟩, by simpa using ho⟩

theorem c10_nonclass_names_fail_notfound_witness :
    isDunderName "meta_handlers" = false ∧
    Session.getattrFull exBegunSess "meta_handlers" =
      .err (.notFound "meta_handlers") :=
  ⟨by decide,
   c10_nonclass_names_fail_notfound exBegunSess "meta_handlers"
    [("lr", Val.prim (Prim.pstr "0.1"))] []
    (by decide) rfl rfl (by decide) (by decide) (by decide) (by decide)
    (by decide)⟩

end Babar
